import Mathlib

/-!
Verification development for the goreadme-server job orchestration engine.

The definitions below are a shallow embedding of the Go source in
`src/internal/githubapp/githubapp.go`.  That file contains, besides the
GitHub-app client code, three revisions of the server's `job.go`:

* the revision at source lines 160-511 (the latest one; `done`,
  `createBranch`, `remoteReadme(ctx, branch)`) — embedded here in
  namespace `V1`;
* the revision at source lines 512-862 (`saveError`/`saveSuccess`,
  `getBranch`, `remoteReadme(ctx)`) — embedded in namespace `V2`;
* an older fully-inlined revision at lines 863-1175 (not separately
  embedded; where it is relevant it agrees with `V2`).

Functions that are textually identical in the revisions (`getConfig`,
`remoteReadme`'s body, `commit`, `updateProject`/`saveProject`, `init`,
`Run`) are embedded once, in namespace `Job`.

External effects (GitHub API calls, the gorm database, the goreadme
generator) are modelled by explicit environment records holding the
outcome of each remote call, and every remote interaction performed by
the code is recorded in an event trace, so that theorems can speak about
which remote mutations a run performs and with which arguments.
-/

namespace Goreadme

/-- Go constant `githubAppURL` (source line 180). -/
def githubAppURL : String := "https://github.com/apps/goreadme"

/-- Go constant `configPath` (source line 182). -/
def configPath : String := "goreadme.json"

/-- Go constant `defaultReadmePath` (source line 183). -/
def defaultReadmePath : String := "README.md"

/-- Go constant `goreadmeBranch` (source line 187). -/
def goreadmeBranch : String := "goreadme"

/-- Go constant `goreadmeRef` (source line 188). -/
def goreadmeRef : String := "refs/heads/" ++ goreadmeBranch

/-- Go constant `credits` (source lines 511 and 862):
`"\nCreated by [goreadme](" + githubAppURL + ")\n"`. -/
def credits : String := "\nCreated by [goreadme](" ++ githubAppURL ++ ")\n"

/-- Modelled from the spec: the content digest (`computeSHA`, source
lines 507-509, spec 4.1 ContentAddresser).  The Go code delegates to the
external go-git library (`plumbing.ComputeHash(plumbing.BlobObject, b)`),
which is not part of this repository; per spec 4.1 it is a
deterministic, collision-resistant digest of the byte content, used
consistently by every code path.  It is modelled as an injective tagging
function on the content. -/
def computeSHA (b : String) : String := "blob:" ++ b

/-- The digest model is injective: equal digests come from equal contents
(the idealisation of spec 4.1's collision resistance). -/
theorem computeSHA_inj {a b : String} (h : computeSHA a = computeSHA b) : a = b := by
  have hd := congrArg String.data h
  simp only [computeSHA, String.data_append] at hd
  exact String.ext (List.append_cancel_left hd)

/-- A digest of actual content is never the empty string (the empty
digest is the "document absent" marker in `remoteReadme`). -/
theorem computeSHA_ne_empty (b : String) : computeSHA b ≠ "" := by
  intro h
  have hd := congrArg String.length h
  simp only [computeSHA, String.length_append, String.length_empty] at hd
  have h5 : "blob:".length = 5 := rfl
  omega

deriving instance DecidableEq for Except

/-- `errors.Wrap(err, msg).Error()` from the pkg/errors library renders
as `msg ++ ": " ++ err.Error()`. -/
def wrap (msg e : String) : String := msg ++ ": " ++ e

/-- The repository configuration `goreadme.Config` is an external type
(from the goreadme library); only its zero value and parsed values are
threaded through, so it is modelled as an optional payload (`none` is the
zero value used when no config file exists). -/
abbrev Config := Option String

/-- Response of `Repositories.GetContents` as consumed by `getConfig`
(source lines 442-460): HTTP status, call error, and the outcome of
`cfgContent.GetContent()`. -/
structure ContentsResp where
  status : Nat
  err : Option String
  content : Except String String
deriving DecidableEq

/-- Response of `Repositories.GetReadme` as consumed by `remoteReadme`
(source lines 353-370): HTTP status, call error, the outcome of
`readme.GetContent()`, and `readme.GetPath()`. -/
structure ReadmeResp where
  status : Nat
  err : Option String
  content : Except String String
  path : String
deriving DecidableEq

/-- Response of `Repositories.GetBranch` as consumed by the branch step
(source lines 372-394 and 702-725). -/
structure BranchResp where
  status : Nat
  err : Option String
deriving DecidableEq

/-- An open pull request as returned by `PullRequests.List`: its number
and head branch ref. -/
structure PR where
  number : Nat
  headRef : String
deriving DecidableEq

/-- Arguments of a `Repositories.UpdateFile` call (source lines
396-413): target path, new content, branch, and the base blob SHA. -/
structure CommitCall where
  path : String
  content : String
  branch : String
  sha : String
deriving DecidableEq

/-- One remote or database interaction performed by a job run. -/
inductive Event where
  | configRead
  | generate
  | readmeRead (ref : Option String)
  | branchGet
  | refCreate (sha : String)
  | fileUpdate (c : CommitCall)
  | prList (filterHead : Option String) (filterBase : Option String)
  | prCreate (title base head : String)
  | warnAmbiguous
  | save (status message debug : String)
  | projectUpdate
deriving DecidableEq

/-- The `UpdateFile` calls occurring in a trace, with their arguments. -/
def commitCalls (t : List Event) : List CommitCall :=
  t.filterMap fun e =>
    match e with
    | Event.fileUpdate c => some c
    | _ => none

/-- The `Git.CreateRef` calls occurring in a trace (base commit SHAs). -/
def refCreates (t : List Event) : List String :=
  t.filterMap fun e =>
    match e with
    | Event.refCreate s => some s
    | _ => none

/-- The `PullRequests.Create` calls occurring in a trace. -/
def prCreates (t : List Event) : List (String × String × String) :=
  t.filterMap fun e =>
    match e with
    | Event.prCreate t b h => some (t, b, h)
    | _ => none

/-- The job-row saves occurring in a trace (status, message, debug). -/
def saves (t : List Event) : List (String × String × String) :=
  t.filterMap fun e =>
    match e with
    | Event.save s m d => some (s, m, d)
    | _ => none

theorem commitCalls_append (a b : List Event) :
    commitCalls (a ++ b) = commitCalls a ++ commitCalls b := by
  simp [commitCalls]

theorem refCreates_append (a b : List Event) :
    refCreates (a ++ b) = refCreates a ++ refCreates b := by
  simp [refCreates]

theorem prCreates_append (a b : List Event) :
    prCreates (a ++ b) = prCreates a ++ prCreates b := by
  simp [prCreates]

theorem saves_append (a b : List Event) :
    saves (a ++ b) = saves a ++ saves b := by
  simp [saves]

/-- The `Project` row (source lines 191-205): one row per (owner, repo).
The gorm-managed `CreatedAt`/`UpdatedAt` timestamps are wall-clock
metadata and are not modelled. -/
structure Project where
  Install : Int := 0
  Repo : String := ""
  Owner : String := ""
  LastJob : Nat := 0
  HeadSHA : String := ""
  PR : Nat := 0
  Message : String := ""
  Status : String := ""
  DefaultBranch : String := ""
  Private : Bool := false
deriving DecidableEq

/-- The `Job` row (source lines 207-218): the embedded `Project`
snapshot plus the per-attempt fields.  `Duration` is wall-clock time; the
run embedding records only whether it was set. -/
structure Job extends Project where
  Num : Nat := 0
  Debug : String := ""
deriving DecidableEq

/-- The per-attempt inputs a job carries into `runInBackground`:
`j.DefaultBranch`, `j.HeadSHA` and the initial `j.PR`. -/
structure JobIn where
  defaultBranch : String := "master"
  headSHA : String := ""
  pr : Nat := 0
deriving DecidableEq

/-- Final job fields after a run: `Status`, `Message`, `Debug`, `PR`,
and whether `Duration` was assigned. -/
structure JobOut where
  status : String
  message : String
  debug : String
  pr : Nat
  durationSet : Bool
deriving DecidableEq

namespace Job

/-- `getConfig` (source lines 442-460 = 794-812): 404 on the config file
yields the zero-value config with no error; a call error or an
unreadable/unparsable content is wrapped and returned.  The external
`json.Unmarshal` is supplied by the environment as `unmarshal`. -/
def getConfig (unmarshal : String → Except String Config) (r : ContentsResp) :
    Except String Config :=
  if r.status = 404 then Except.ok none
  else
    match r.err with
    | some e => Except.error (wrap "failed get config file" e)
    | none =>
      match r.content with
      | Except.error e => Except.error (wrap "failed get config content" e)
      | Except.ok content =>
        match unmarshal content with
        | Except.error e =>
          Except.error (wrap ("unmarshaling config content " ++ content) e)
        | Except.ok cfg => Except.ok cfg

/-- `remoteReadme` (source lines 353-370, and identically at 683-700):
404 yields the "absent" outcome — empty digest, default path, no error;
a call error or unreadable content is a wrapped error; otherwise the
digest of the decoded content and its actual path are returned. -/
def remoteReadme (r : ReadmeResp) : Except String (String × String) :=
  if r.status = 404 then Except.ok ("", defaultReadmePath)
  else
    match r.err with
    | some e => Except.error (wrap "failed reading current readme" e)
    | none =>
      match r.content with
      | Except.error e => Except.error (wrap "failed get readme content" e)
      | Except.ok c => Except.ok (computeSHA c, r.path)

/-- `commit` (source lines 396-413 = 727-744): one `UpdateFile` call on
the goreadme branch with the given path, content and base SHA; the call
error (supplied by the environment) is returned unmodified. -/
def commit (updateErr : Option String) (path content sha : String) :
    List Event × Except String Unit :=
  ([Event.fileUpdate ⟨path, content, goreadmeBranch, sha⟩],
   match updateErr with
   | some e => Except.error e
   | none => Except.ok ())

/-- `done` (source lines 313-327; the `saveError`/`saveSuccess` closures
at 595-619 behave identically): set `Message`, `Status` (`Failed` with
`Debug` set to the error text when a cause is present, else `Success`),
set `Duration`, save the job row once, then run the project
reconciliation.  `pre` is the trace accumulated so far and `pr` the
job's current PR number. -/
def done (pre : List Event) (err : Option String) (msg : String) (pr : Nat) :
    JobOut × List Event :=
  let status := match err with | some _ => "Failed" | none => "Success"
  let debug := match err with | some e => e | none => ""
  (⟨status, msg, debug, pr, true⟩,
   pre ++ [Event.save status msg debug, Event.projectUpdate])

/-- `updateProject` (source lines 771-792; `saveProject` at 330-351 is
identical): in a transaction, read the current row (a missing row is
`RecordNotFound` and proceeds with the zero value); skip the write when
the stored `LastJob` is greater than this attempt's; a query or save
error (environment-supplied) rolls back leaving the row unchanged. -/
def updateProject (queryErr saveErr : Option String)
    (cur : Option Project) (p : Project) : Option Project :=
  match queryErr with
  | some _ => cur
  | none =>
    if (match cur with | some c => decide (c.LastJob > p.LastJob) | none => false) then cur
    else
      match saveErr with
      | some _ => cur
      | none => some p

/-- Per-(owner, repo) maximum of `num` over the `jobs` table rows, as
computed by the `SELECT MAX(num)` query in `init`; an empty table scans
the SQL NULL as the zero value 0. -/
def maxNum (jobs : List Nat) : Nat := jobs.foldr Nat.max 0

/-- Outcomes of the database operations inside one `init` transaction. -/
structure InitEnv where
  maxQueryErr : Option String := none
  createErr : Option String := none
  saveErr : Option String := none
  commitErr : Option String := none
deriving DecidableEq

/-- The error-free transaction environment. -/
def noDbErr : InitEnv := ⟨none, none, none, none⟩

/-- `init` (source lines 814-841 = 462-490): inside one transaction read
`MAX(num)` for this owner+repo, assign `Num = max + 1` and
`LastJob = Num`, set `Status` to `"Started"`, insert the job row and
upsert the project snapshot; any failure rolls the transaction back and
returns the wrapped error (the table is left unchanged). -/
def init (env : InitEnv) (jobs : List Nat) (j : Job) :
    Except String (List Nat × Job) :=
  match env.maxQueryErr with
  | some e => Except.error (wrap "get max job" e)
  | none =>
    let n := maxNum jobs + 1
    match env.createErr with
    | some e => Except.error (wrap "creating job" e)
    | none =>
      match env.saveErr with
      | some e => Except.error (wrap "saving project" e)
      | none =>
        match env.commitErr with
        | some e => Except.error e
        | none =>
          Except.ok (n :: jobs, { j with Num := n, LastJob := n, Status := "Started" })

/-- Outcome of `Run` as observed by its caller: either the attempt to
call a method on the nil logger interface raises a runtime panic, or
the function returns `(done, jobNum)` (`done = none` models Go's nil
channel, `some table` the spawned background work). -/
inductive RunResult where
  | panics
  | returns (done : Option (List Nat)) (jobNum : Nat)
deriving DecidableEq

/-- Whether `j.log` is a non-nil interface once `init` has returned: no
constructor assigns it (`runJob` in src/unnamed/part_001 builds the Job
with only Project, db, github and goreadme set), and `init` assigns it
only after the MAX(num) query succeeded (source line 826 = 475), so on
`init`'s return it is non-nil exactly when the MAX query did not
fail. -/
def logSet (env : InitEnv) : Bool := env.maxQueryErr.isNone

/-- `Run` (source lines 571-586 = 220-236): run `init`; on failure the
code calls `j.log.Errorf` and then returns `(nil, 0)` — but when the
logger field is still the nil interface (MAX-query failure, see
`logSet`) the `Errorf` call itself panics and nothing is returned; on
success the background work is spawned (modelled by returning the new
table) and the assigned job number is returned. -/
def Run (env : InitEnv) (jobs : List Nat) (j : Job) : RunResult :=
  match init env jobs j with
  | Except.error _ =>
    if logSet env then RunResult.returns none 0
    else RunResult.panics
  | Except.ok (jobs2, j2) => RunResult.returns (some jobs2) j2.Num

/-- `M` successive `init` transactions against the same (owner, repo)
jobs table with an error-free database (concurrent `StartJob` calls
serialise at the transaction): returns the final table and the created
job rows in execution order. -/
def runInits : List Nat → Job → Nat → List Nat × List Job
  | jobs, _, 0 => (jobs, [])
  | jobs, j, m + 1 =>
    match init noDbErr jobs j with
    | Except.error _ => (jobs, [])
    | Except.ok (jobs2, j2) =>
      let r := runInits jobs2 j m
      (r.1, j2 :: r.2)

end Job

/-- Fixed title of the pull request created by `pullRequest`
(source lines 432 and 756). -/
def prTitle : String := "readme: Update according to go doc"

namespace V1

/-- Environment for the revision at source lines 160-511: the outcome of
every external call `runInBackground` can make.  `readme` is keyed by the
branch ref passed to `GetReadme`. -/
structure Env where
  configResp : ContentsResp
  unmarshal : String → Except String Config
  generate : Config → Except String String
  readme : String → ReadmeResp
  branch : BranchResp
  createRefErr : Option String
  updateFileErr : Option String
  prList : Except String (List PR)
  prCreateResp : Except String PR

/-- `createBranch` (source lines 372-394): look the goreadme branch up;
404 means it does not exist, so create the ref at `headSHA` (a failure is
wrapped); any other lookup error is wrapped; an existing branch is left
as-is. -/
def createBranch (br : BranchResp) (createRefErr : Option String) (headSHA : String) :
    List Event × Except String Unit :=
  if br.status = 404 then
    match createRefErr with
    | some e =>
      ([Event.branchGet, Event.refCreate headSHA],
       Except.error (wrap "failed creating \"refs/heads/goreadme\" ref" e))
    | none => ([Event.branchGet, Event.refCreate headSHA], Except.ok ())
  else
    match br.err with
    | some e =>
      ([Event.branchGet], Except.error (wrap "Failed getting \"goreadme\" branch" e))
    | none => ([Event.branchGet], Except.ok ())

/-- `pullRequest` (source lines 415-440): list open PRs whose base is the
default branch, return the first whose head ref is the goreadme branch;
when none matches create a new PR with the fixed title from the goreadme
branch into the default branch. -/
def pullRequest (defaultBranch : String) (listResp : Except String (List PR))
    (createResp : Except String PR) : List Event × Except String (Nat × Bool) :=
  match listResp with
  | Except.error e =>
    ([Event.prList none (some defaultBranch)],
     Except.error (wrap "Failed listing PRs" e))
  | Except.ok prs =>
    match prs.find? (fun pr => pr.headRef = goreadmeBranch) with
    | some pr => ([Event.prList none (some defaultBranch)], Except.ok (pr.number, false))
    | none =>
      match createResp with
      | Except.error e =>
        ([Event.prList none (some defaultBranch),
          Event.prCreate prTitle defaultBranch goreadmeBranch],
         Except.error (wrap "Failed creatring PR" e))
      | Except.ok pr =>
        ([Event.prList none (some defaultBranch),
          Event.prCreate prTitle defaultBranch goreadmeBranch],
         Except.ok (pr.number, true))

/-- `runInBackground` (source lines 238-311): read config, generate the
new readme and append the credits line, digest it, read the default
branch's readme, stop successfully when the digests match, otherwise
ensure the goreadme branch exists, read the readme on the goreadme
branch, commit the new content there using that readme's digest as base
SHA, and find-or-create the pull request.  Every failure goes through
`done` with a step-specific message; every path ends in exactly one
`done`. -/
def runInBackground (jin : JobIn) (env : Env) : JobOut × List Event :=
  match Job.getConfig env.unmarshal env.configResp with
  | Except.error e => Job.done [Event.configRead] (some e) "Failed getting config" jin.pr
  | Except.ok cfg =>
    match env.generate cfg with
    | Except.error e =>
      Job.done [Event.configRead, Event.generate] (some e)
        ("Failed running goreadme: " ++ e) jin.pr
    | Except.ok g =>
      let newContent := g ++ credits
      let newSHA := computeSHA newContent
      let pre := [Event.configRead, Event.generate,
        Event.readmeRead (some jin.defaultBranch)]
      match Job.remoteReadme (env.readme jin.defaultBranch) with
      | Except.error e =>
        Job.done pre (some e) "Failed getting github README content" jin.pr
      | Except.ok (defaultBranchSHA, readmePath) =>
        if defaultBranchSHA = newSHA then
          Job.done pre none
            ("Readme in branch " ++ jin.defaultBranch ++ " is up to date") jin.pr
        else
          match createBranch env.branch env.createRefErr jin.headSHA with
          | (evB, Except.error e) =>
            Job.done (pre ++ evB) (some e) "Failed creating branch" jin.pr
          | (evB, Except.ok _) =>
            match Job.remoteReadme (env.readme goreadmeBranch) with
            | Except.error e =>
              Job.done (pre ++ evB ++ [Event.readmeRead (some goreadmeBranch)])
                (some e) "Failed get remote readme SHA" jin.pr
            | Except.ok (sha, _) =>
              let pre2 := pre ++ evB ++ [Event.readmeRead (some goreadmeBranch)]
              match Job.commit env.updateFileErr readmePath newContent sha with
              | (evC, Except.error e) =>
                Job.done (pre2 ++ evC) (some e) "Failed pushing readme content" jin.pr
              | (evC, Except.ok _) =>
                match pullRequest jin.defaultBranch env.prList env.prCreateResp with
                | (evP, Except.error e) =>
                  Job.done (pre2 ++ evC ++ evP) (some e) "Failed creating PR" jin.pr
                | (evP, Except.ok (num, created)) =>
                  Job.done (pre2 ++ evC ++ evP) none
                    (if created then "Created PR" else "PR updated") num

end V1

namespace V2

/-- Environment for the revision at source lines 512-862.  `GetReadme`
is called once with nil options (the default branch), so a single
response suffices. -/
structure Env where
  configResp : ContentsResp
  unmarshal : String → Except String Config
  generate : Config → Except String String
  readmeResp : ReadmeResp
  branch : BranchResp
  createRefErr : Option String
  updateFileErr : Option String
  prList : Except String (List PR)
  prCreateResp : Except String PR

/-- `getBranch` (source lines 702-725): like `V1.createBranch` but
additionally reports whether the branch was created in this attempt. -/
def getBranch (br : BranchResp) (createRefErr : Option String) (headSHA : String) :
    List Event × Except String Bool :=
  if br.status = 404 then
    match createRefErr with
    | some e =>
      ([Event.branchGet, Event.refCreate headSHA],
       Except.error (wrap "failed creating \"refs/heads/goreadme\" ref" e))
    | none => ([Event.branchGet, Event.refCreate headSHA], Except.ok true)
  else
    match br.err with
    | some e =>
      ([Event.branchGet], Except.error (wrap "Failed getting \"goreadme\" branch" e))
    | none => ([Event.branchGet], Except.ok false)

/-- `pullRequest` (source lines 746-769): list open PRs filtered by head
= goreadme branch; an empty list creates a new PR with the fixed title;
more than one candidate logs a warning; the first listed PR is reused. -/
def pullRequest (defaultBranch : String) (listResp : Except String (List PR))
    (createResp : Except String PR) : List Event × Except String (Nat × Bool) :=
  match listResp with
  | Except.error e =>
    ([Event.prList (some goreadmeBranch) none],
     Except.error (wrap "Failed listing PRs" e))
  | Except.ok [] =>
    match createResp with
    | Except.error e =>
      ([Event.prList (some goreadmeBranch) none,
        Event.prCreate prTitle defaultBranch goreadmeBranch],
       Except.error (wrap "Failed creatring PR" e))
    | Except.ok pr =>
      ([Event.prList (some goreadmeBranch) none,
        Event.prCreate prTitle defaultBranch goreadmeBranch],
       Except.ok (pr.number, true))
  | Except.ok (pr0 :: rest) =>
    (if rest.isEmpty then [Event.prList (some goreadmeBranch) none]
     else [Event.prList (some goreadmeBranch) none, Event.warnAmbiguous],
     Except.ok (pr0.number, false))

/-- `runInBackground` (source lines 588-681): read config, generate and
append credits, digest, read the upstream (default branch) readme, stop
successfully when the digests match; otherwise the base SHA starts as
the new content's digest, is replaced by the upstream digest when the
branch was created in this attempt, the new content is committed with
that base, and the pull request is found-or-created. -/
def runInBackground (jin : JobIn) (env : Env) : JobOut × List Event :=
  match Job.getConfig env.unmarshal env.configResp with
  | Except.error e => Job.done [Event.configRead] (some e) "Failed getting config" jin.pr
  | Except.ok cfg =>
    match env.generate cfg with
    | Except.error e =>
      Job.done [Event.configRead, Event.generate] (some e)
        ("Failed running goreadme: " ++ e) jin.pr
    | Except.ok g =>
      let b := g ++ credits
      let newSHA := computeSHA b
      let pre := [Event.configRead, Event.generate, Event.readmeRead none]
      match Job.remoteReadme env.readmeResp with
      | Except.error e =>
        Job.done pre (some e) "Failed getting github README content" jin.pr
      | Except.ok (upstreamSHA, readmePath) =>
        if upstreamSHA = newSHA then
          Job.done pre none "Current readme is up to date" jin.pr
        else
          match getBranch env.branch env.createRefErr jin.headSHA with
          | (evB, Except.error e) =>
            Job.done (pre ++ evB) (some e) "Failed creating branch" jin.pr
          | (evB, Except.ok newBranch) =>
            let sha := if newBranch then upstreamSHA else newSHA
            match Job.commit env.updateFileErr readmePath b sha with
            | (evC, Except.error e) =>
              Job.done (pre ++ evB ++ evC) (some e) "Failed pushing readme content" jin.pr
            | (evC, Except.ok _) =>
              match pullRequest jin.defaultBranch env.prList env.prCreateResp with
              | (evP, Except.error e) =>
                Job.done (pre ++ evB ++ evC ++ evP) (some e) "Failed creating PR" jin.pr
              | (evP, Except.ok (num, created)) =>
                Job.done (pre ++ evB ++ evC ++ evP) none
                  (if created then "Created PR" else "PR updated") num

end V2

end Goreadme

namespace Goreadme

/-- Helper: `maxNum` of the table after inserting the freshly assigned
number is that number. -/
theorem maxNum_cons_succ (jobs : List Nat) :
    Job.maxNum ((Job.maxNum jobs + 1) :: jobs) = Job.maxNum jobs + 1 := by
  show Nat.max (Job.maxNum jobs + 1) (Job.maxNum jobs) = Job.maxNum jobs + 1
  exact Nat.max_eq_left (Nat.le_succ _)

/-- Helper: the numbers assigned by `M` successive error-free `init`
transactions are exactly `maxNum + 1, maxNum + 2, ...`. -/
theorem runInits_nums : ∀ (M : Nat) (jobs : List Nat) (j : Job),
    (Job.runInits jobs j M).2.map (fun jc => jc.Num) =
      List.range' (Job.maxNum jobs + 1) M := by
  intro M
  induction M with
  | zero => intro jobs j; simp [Job.runInits]
  | succ m ih =>
    intro jobs j
    simp only [Job.runInits, Job.init, Job.noDbErr, List.map]
    rw [ih, maxNum_cons_succ]
    rfl

/-- Helper: every job row created by `runInits` carries
`Status = "Started"` and `LastJob = Num`. -/
theorem runInits_rows : ∀ (M : Nat) (jobs : List Nat) (j : Job),
    ∀ jc ∈ (Job.runInits jobs j M).2, jc.Status = "Started" ∧ jc.LastJob = jc.Num := by
  intro M
  induction M with
  | zero => intro jobs j jc h; simp [Job.runInits] at h
  | succ m ih =>
    intro jobs j jc h
    simp only [Job.runInits, Job.init, Job.noDbErr, List.mem_cons] at h
    rcases h with h | h
    · subst h; exact ⟨rfl, rfl⟩
    · exact ih _ _ jc h

/-- C5: every new Job gets number `max(existing) + 1`, assigned together
with the row insert and the `Started` project upsert in one transaction,
so M serialised `StartJob` transactions on the same owner+repo assign
exactly the numbers `k+1, ..., k+M` (strictly increasing, no duplicates,
no gaps), where `k` is the prior maximum. -/
theorem init_job_numbering (jobs : List Nat) (j : Job) (M : Nat) :
    ((Job.runInits jobs j M).2.map (fun jc => jc.Num) =
       List.range' (Job.maxNum jobs + 1) M) ∧
    ((Job.runInits jobs j M).2.map (fun jc => jc.Num)).Pairwise (· < ·) ∧
    (∀ jc ∈ (Job.runInits jobs j M).2, jc.Status = "Started" ∧ jc.LastJob = jc.Num) ∧
    (∀ (env : Job.InitEnv) (jobs0 : List Nat) (j0 : Job) r,
       Job.init env jobs0 j0 = Except.ok r →
       r.2.Num = Job.maxNum jobs0 + 1 ∧ r.2.LastJob = r.2.Num ∧
       r.2.Status = "Started" ∧ r.1 = r.2.Num :: jobs0) := by
  refine ⟨runInits_nums M jobs j, ?_, runInits_rows M jobs j, ?_⟩
  · rw [runInits_nums M jobs j]
    exact List.pairwise_lt_range' _ _
  · intro env jobs0 j0 r h
    cases h1 : env.maxQueryErr with
    | some e => simp [Job.init, h1] at h
    | none =>
      cases h2 : env.createErr with
      | some e => simp [Job.init, h1, h2] at h
      | none =>
        cases h3 : env.saveErr with
        | some e => simp [Job.init, h1, h2, h3] at h
        | none =>
          cases h4 : env.commitErr with
          | some e => simp [Job.init, h1, h2, h3, h4] at h
          | none =>
            simp only [Job.init, h1, h2, h3, h4] at h
            cases h
            exact ⟨rfl, rfl, rfl, rfl⟩

/-- C5 witness: from a table whose maximum job number is 4, three
transactions assign exactly the numbers 5, 6, 7. -/
theorem init_job_numbering_witness :
    (Job.runInits [4, 2] {} 3).2.map (fun jc => jc.Num) = [5, 6, 7] ∧
    Job.init Job.noDbErr [4, 2] {} =
      Except.ok ([5, 4, 2], { Num := 5, LastJob := 5, Status := "Started" }) := by
  have h := init_job_numbering [4, 2] {} 3
  refine ⟨h.1.trans (by decide), ?_⟩
  have h2 := h.2.2.2 Job.noDbErr [4, 2] {}
    ([5, 4, 2], { Num := 5, LastJob := 5, Status := "Started" }) (by decide)
  decide

/-- C4: `updateProject` aborts exactly when the stored row's `LastJob`
exceeds this attempt's, otherwise upserts this attempt's snapshot;
consequently, for two attempts finishing in either order the row ends up
reflecting the higher-numbered one. -/
theorem updateProject_last_writer_wins :
    (∀ (c p : Project), c.LastJob > p.LastJob →
       Job.updateProject none none (some c) p = some c) ∧
    (∀ (cur : Option Project) (p : Project),
       (∀ c, cur = some c → c.LastJob ≤ p.LastJob) →
       Job.updateProject none none cur p = some p) ∧
    (∀ (cur : Option Project) (a b : Project), a.LastJob < b.LastJob →
       (∀ c, cur = some c → c.LastJob ≤ a.LastJob) →
       Job.updateProject none none (Job.updateProject none none cur a) b = some b ∧
       Job.updateProject none none (Job.updateProject none none cur b) a = some b) := by
  have habort : ∀ (c p : Project), c.LastJob > p.LastJob →
      Job.updateProject none none (some c) p = some c := by
    intro c p h
    simp [Job.updateProject, h]
  have hupsert : ∀ (cur : Option Project) (p : Project),
      (∀ c, cur = some c → c.LastJob ≤ p.LastJob) →
      Job.updateProject none none cur p = some p := by
    intro cur p h
    cases cur with
    | none => simp [Job.updateProject]
    | some c =>
      have hc := h c rfl
      simp [Job.updateProject, Nat.not_lt.mpr hc]
  refine ⟨habort, hupsert, ?_⟩
  intro cur a b hab hcur
  constructor
  · rw [hupsert cur a hcur]
    exact hupsert (some a) b (fun c hc => by cases hc; exact Nat.le_of_lt hab)
  · rw [hupsert cur b (fun c hc => Nat.le_trans (hcur c hc) (Nat.le_of_lt hab))]
    exact habort b a hab

/-- C4 witness: with an existing row from job 1, jobs 3 and 5 finishing
in either order leave the row at job 5's snapshot. -/
theorem updateProject_last_writer_wins_witness :
    Job.updateProject none none
        (Job.updateProject none none (some { LastJob := 1 }) { LastJob := 3 })
        { LastJob := 5 } = some { LastJob := 5 } ∧
    Job.updateProject none none
        (Job.updateProject none none (some { LastJob := 1 }) { LastJob := 5 })
        { LastJob := 3 } = some { LastJob := 5 } := by
  exact updateProject_last_writer_wins.2.2 (some { LastJob := 1 })
    { LastJob := 3 } { LastJob := 5 } (by decide)
    (fun c hc => by injection hc with h; subst h; decide)

/-- C8: the claim fails at a failing MAX(num) query — `j.log` is
assigned only after that query (source line 826 = 475) and no
constructor sets it, so `Run`'s `j.log.Errorf` call (source line
574 = 224) panics on the nil interface instead of logging and
returning `(nil, 0)`; a failure in any later statement of the `init`
transaction (job insert, project upsert, commit) is logged and yields
`(nil, 0)` as the claim describes; every `init` success returns the
assigned number with the background work spawned. -/
theorem run_panics_on_max_query_failure :
    Job.Run ⟨some "db down", none, none, none⟩ [] {} = Job.RunResult.panics ∧
    Job.Run ⟨none, some "insert failed", none, none⟩ [] {} =
      Job.RunResult.returns none 0 ∧
    Job.Run ⟨none, none, some "upsert failed", none⟩ [] {} =
      Job.RunResult.returns none 0 ∧
    Job.Run ⟨none, none, none, some "commit failed"⟩ [] {} =
      Job.RunResult.returns none 0 ∧
    Job.Run Job.noDbErr [] {} = Job.RunResult.returns (some [1]) 1 := by
  decide

/-- C9: `remoteReadme` returns the absent outcome (empty digest, default
path `README.md`, no error) exactly on a 404 response; a present
document yields the digest of its decoded content and its actual path;
any other failure yields an error, never the absent outcome. -/
theorem remoteReadme_absent_iff_not_found (r : ReadmeResp) :
    (r.status = 404 → Job.remoteReadme r = Except.ok ("", "README.md")) ∧
    (r.status ≠ 404 → r.err = none → ∀ c, r.content = Except.ok c →
       Job.remoteReadme r = Except.ok (computeSHA c, r.path)) ∧
    (r.status ≠ 404 → (r.err ≠ none ∨ ∃ e, r.content = Except.error e) →
       ∃ msg, Job.remoteReadme r = Except.error msg) ∧
    (∀ p, Job.remoteReadme r = Except.ok ("", p) → r.status = 404) := by
  refine ⟨?_, ?_, ?_, ?_⟩
  · intro h
    simp [Job.remoteReadme, h, defaultReadmePath]
  · intro h he c hc
    simp [Job.remoteReadme, h, he, hc]
  · intro h hor
    cases hne : r.err with
    | some e =>
      exact ⟨wrap "failed reading current readme" e, by simp [Job.remoteReadme, h, hne]⟩
    | none =>
      rcases hor with he | ⟨e, hc⟩
      · exact absurd hne he
      · exact ⟨wrap "failed get readme content" e, by simp [Job.remoteReadme, h, hne, hc]⟩
  · intro p hp
    by_contra h404
    cases hne : r.err with
    | some e => simp [Job.remoteReadme, h404, hne] at hp
    | none =>
      cases hc : r.content with
      | error e => simp [Job.remoteReadme, h404, hne, hc] at hp
      | ok c =>
        simp [Job.remoteReadme, h404, hne, hc] at hp
        exact computeSHA_ne_empty c hp.1

/-- C9 witness: a 404 yields the absent outcome; a present document
yields its content digest and path. -/
theorem remoteReadme_absent_iff_not_found_witness :
    Job.remoteReadme ⟨404, some "Not Found", Except.error "x", "y"⟩ =
      Except.ok ("", "README.md") ∧
    Job.remoteReadme ⟨200, none, Except.ok "hello", "docs/README.md"⟩ =
      Except.ok (computeSHA "hello", "docs/README.md") := by
  exact ⟨(remoteReadme_absent_iff_not_found ⟨404, some "Not Found", Except.error "x", "y"⟩).1 rfl,
    (remoteReadme_absent_iff_not_found ⟨200, none, Except.ok "hello", "docs/README.md"⟩).2.1
      (by decide) rfl "hello" rfl⟩

/-- C6: PR resolution lists open PRs with head = the goreadme branch;
with no candidate it creates exactly one PR with the fixed title from
the goreadme branch into the default branch and reports `created`; with
exactly one candidate it reuses it and creates nothing; with several it
takes the first in listing order, logs a warning, and creates nothing. -/
theorem pullRequest_resolution (db : String) (createResp : Except String PR) :
    (∀ pr, createResp = Except.ok pr →
       V2.pullRequest db (Except.ok []) createResp =
         ([Event.prList (some goreadmeBranch) none,
           Event.prCreate prTitle db goreadmeBranch],
          Except.ok (pr.number, true))) ∧
    (∀ pr0, V2.pullRequest db (Except.ok [pr0]) createResp =
       ([Event.prList (some goreadmeBranch) none], Except.ok (pr0.number, false))) ∧
    (∀ pr0 pr1 rest,
       V2.pullRequest db (Except.ok (pr0 :: pr1 :: rest)) createResp =
         ([Event.prList (some goreadmeBranch) none, Event.warnAmbiguous],
          Except.ok (pr0.number, false))) := by
  refine ⟨?_, ?_, ?_⟩
  · intro pr h
    simp [V2.pullRequest, h]
  · intro pr0
    simp [V2.pullRequest]
  · intro pr0 pr1 rest
    simp [V2.pullRequest]

/-- C6 witness: the three resolution cases at concrete inputs. -/
theorem pullRequest_resolution_witness :
    V2.pullRequest "master" (Except.ok []) (Except.ok ⟨3, "goreadme"⟩) =
      ([Event.prList (some goreadmeBranch) none,
        Event.prCreate prTitle "master" goreadmeBranch],
       Except.ok (3, true)) ∧
    V2.pullRequest "master" (Except.ok [⟨7, "goreadme"⟩]) (Except.ok ⟨3, "goreadme"⟩) =
      ([Event.prList (some goreadmeBranch) none], Except.ok (7, false)) ∧
    V2.pullRequest "master" (Except.ok [⟨7, "goreadme"⟩, ⟨8, "goreadme"⟩])
        (Except.ok ⟨3, "goreadme"⟩) =
      ([Event.prList (some goreadmeBranch) none, Event.warnAmbiguous],
       Except.ok (7, false)) := by
  exact ⟨(pullRequest_resolution "master" (Except.ok ⟨3, "goreadme"⟩)).1 _ rfl,
    (pullRequest_resolution "master" (Except.ok ⟨3, "goreadme"⟩)).2.1 _,
    (pullRequest_resolution "master" (Except.ok ⟨3, "goreadme"⟩)).2.2 _ _ _⟩

/-- Helper: the branch step performs the lookup and at most one ref
creation. -/
theorem V1.createBranch_events (br : BranchResp) (ce : Option String) (h : String) :
    (V1.createBranch br ce h).1 = [Event.branchGet] ∨
    (V1.createBranch br ce h).1 = [Event.branchGet, Event.refCreate h] := by
  by_cases h4 : br.status = 404
  · cases ce <;> simp [V1.createBranch, h4]
  · cases he : br.err <;> simp [V1.createBranch, h4, he]

/-- Helper: `V2.getBranch` performs the lookup and at most one ref
creation. -/
theorem V2.getBranch_events (br : BranchResp) (ce : Option String) (h : String) :
    (V2.getBranch br ce h).1 = [Event.branchGet] ∨
    (V2.getBranch br ce h).1 = [Event.branchGet, Event.refCreate h] := by
  by_cases h4 : br.status = 404
  · cases ce <;> simp [V2.getBranch, h4]
  · cases he : br.err <;> simp [V2.getBranch, h4, he]

/-- Helper: the V1 PR step performs the list call and at most one create
call. -/
theorem V1.pullRequest_step_events (db : String) (l : Except String (List PR))
    (cr : Except String PR) :
    (V1.pullRequest db l cr).1 = [Event.prList none (some db)] ∨
    (V1.pullRequest db l cr).1 =
      [Event.prList none (some db), Event.prCreate prTitle db goreadmeBranch] := by
  rcases l with e | prs
  · simp [V1.pullRequest]
  · rcases hf : prs.find? (fun pr => pr.headRef = goreadmeBranch) with _ | pr
    · rcases cr with e | pr2 <;> simp [V1.pullRequest, hf]
    · simp [V1.pullRequest, hf]

/-- Helper: the V2 PR step performs the list call, at most one create
call, and possibly the ambiguity warning. -/
theorem V2.pullRequest_list_events (db : String) (l : Except String (List PR))
    (cr : Except String PR) :
    (V2.pullRequest db l cr).1 = [Event.prList (some goreadmeBranch) none] ∨
    (V2.pullRequest db l cr).1 =
      [Event.prList (some goreadmeBranch) none,
       Event.prCreate prTitle db goreadmeBranch] ∨
    (V2.pullRequest db l cr).1 =
      [Event.prList (some goreadmeBranch) none, Event.warnAmbiguous] := by
  rcases l with e | prs
  · simp [V2.pullRequest]
  · rcases prs with _ | ⟨p0, rest⟩
    · rcases cr with e | pr <;> simp [V2.pullRequest]
    · rcases rest with _ | ⟨p1, rest2⟩ <;> simp [V2.pullRequest]

/-- C1: when the goreadme branch already exists (lookup succeeds, no
creation) and publishing proceeds, the `UpdateFile` commit uses as base
SHA the digest of the document currently at the tip of the goreadme
branch itself, not the digest of the newly generated content. -/
theorem existing_branch_commit_uses_tip_digest
    (jin : JobIn) (env : V1.Env) (cfg : Config) (g d0 rp c1 : String)
    (hc : Job.getConfig env.unmarshal env.configResp = Except.ok cfg)
    (hg : env.generate cfg = Except.ok g)
    (hrd : Job.remoteReadme (env.readme jin.defaultBranch) = Except.ok (d0, rp))
    (hgate : d0 ≠ computeSHA (g ++ credits))
    (hbs : env.branch.status ≠ 404)
    (hbe : env.branch.err = none)
    (hts : (env.readme goreadmeBranch).status ≠ 404)
    (hte : (env.readme goreadmeBranch).err = none)
    (htc : (env.readme goreadmeBranch).content = Except.ok c1) :
    commitCalls (V1.runInBackground jin env).2 =
      [⟨rp, g ++ credits, goreadmeBranch, computeSHA c1⟩] ∧
    refCreates (V1.runInBackground jin env).2 = [] ∧
    (c1 ≠ g ++ credits → computeSHA c1 ≠ computeSHA (g ++ credits)) := by
  have hcb : V1.createBranch env.branch env.createRefErr jin.headSHA =
      ([Event.branchGet], Except.ok ()) := by
    simp [V1.createBranch, hbs, hbe]
  have hr2 : Job.remoteReadme (env.readme goreadmeBranch) =
      Except.ok (computeSHA c1, (env.readme goreadmeBranch).path) := by
    simp [Job.remoteReadme, hts, hte, htc]
  have hlast : c1 ≠ g ++ credits → computeSHA c1 ≠ computeSHA (g ++ credits) :=
    fun hne h => hne (computeSHA_inj h)
  refine ⟨?_, ?_, hlast⟩ <;>
  · simp only [V1.runInBackground, hc, hg, hrd, hgate, hcb, hr2, Job.commit,
      ite_false, if_neg hgate]
    cases hu : env.updateFileErr with
    | some e =>
      simp [Job.done, commitCalls, refCreates, commitCalls_append, refCreates_append]
    | none =>
      rcases hpr : V1.pullRequest jin.defaultBranch env.prList env.prCreateResp
        with ⟨evP, rP⟩
      have hev := V1.pullRequest_step_events jin.defaultBranch env.prList env.prCreateResp
      rw [hpr] at hev
      cases rP <;>
        rcases hev with hev | hev <;>
          subst hev <;>
            simp [Job.done, commitCalls, refCreates, commitCalls_append,
              refCreates_append]

/-- Concrete V1 environment: config absent, generation succeeds, default
branch readme differs from the new content, goreadme branch exists with
its own tip content, one open PR. -/
def envC1 : V1.Env :=
  { configResp := ⟨404, none, Except.ok ""⟩
    unmarshal := fun _ => Except.ok none
    generate := fun _ => Except.ok "G"
    readme := fun br =>
      if br = "goreadme" then ⟨200, none, Except.ok "TIP", "README.md"⟩
      else ⟨200, none, Except.ok "OLD", "README.md"⟩
    branch := ⟨200, none⟩
    createRefErr := none
    updateFileErr := none
    prList := Except.ok [⟨7, "goreadme"⟩]
    prCreateResp := Except.ok ⟨9, "goreadme"⟩ }

/-- C1 witness: with the goreadme branch present holding content `TIP`,
the commit base SHA is the digest of `TIP`, and no ref is created. -/
theorem existing_branch_commit_uses_tip_digest_witness :
    commitCalls (V1.runInBackground {} envC1).2 =
      [⟨"README.md", "G" ++ credits, goreadmeBranch, computeSHA "TIP"⟩] ∧
    refCreates (V1.runInBackground {} envC1).2 = [] ∧
    computeSHA "TIP" ≠ computeSHA ("G" ++ credits) := by
  have h := existing_branch_commit_uses_tip_digest {} envC1 none "G"
    (computeSHA "OLD") "README.md" "TIP" rfl rfl (by decide) (by decide)
    (by decide) rfl (by decide) rfl rfl
  exact ⟨h.1, h.2.1, h.2.2 (by decide)⟩

/-- C2: when the goreadme branch did not exist and is created in this
attempt, the `UpdateFile` commit uses as base SHA the digest of the
document currently on the default branch (inherited by the new branch),
not the digest of the new content. -/
theorem new_branch_commit_uses_default_branch_digest
    (jin : JobIn) (env : V2.Env) (cfg : Config) (g c0 : String)
    (hc : Job.getConfig env.unmarshal env.configResp = Except.ok cfg)
    (hg : env.generate cfg = Except.ok g)
    (hrs : env.readmeResp.status ≠ 404)
    (hre : env.readmeResp.err = none)
    (hrc : env.readmeResp.content = Except.ok c0)
    (hgate : computeSHA c0 ≠ computeSHA (g ++ credits))
    (hbs : env.branch.status = 404)
    (hce : env.createRefErr = none) :
    commitCalls (V2.runInBackground jin env).2 =
      [⟨env.readmeResp.path, g ++ credits, goreadmeBranch, computeSHA c0⟩] ∧
    refCreates (V2.runInBackground jin env).2 = [jin.headSHA] := by
  have hrr : Job.remoteReadme env.readmeResp =
      Except.ok (computeSHA c0, env.readmeResp.path) := by
    simp [Job.remoteReadme, hrs, hre, hrc]
  have hgb : V2.getBranch env.branch env.createRefErr jin.headSHA =
      ([Event.branchGet, Event.refCreate jin.headSHA], Except.ok true) := by
    simp [V2.getBranch, hbs, hce]
  refine ⟨?_, ?_⟩ <;>
  · simp only [V2.runInBackground, hc, hg, hrr, hgb, Job.commit, if_neg hgate]
    cases hu : env.updateFileErr with
    | some e =>
      simp [Job.done, commitCalls, refCreates, commitCalls_append, refCreates_append]
    | none =>
      rcases hpr : V2.pullRequest jin.defaultBranch env.prList env.prCreateResp
        with ⟨evP, rP⟩
      have hev := V2.pullRequest_list_events jin.defaultBranch env.prList env.prCreateResp
      rw [hpr] at hev
      cases rP <;>
        rcases hev with hev | hev | hev <;>
          subst hev <;>
            simp [Job.done, commitCalls, refCreates, commitCalls_append,
              refCreates_append]

/-- Concrete V2 environment: config absent, generation succeeds, default
branch readme `OLD` differs from the new content, goreadme branch
absent, ref creation succeeds. -/
def envC2 : V2.Env :=
  { configResp := ⟨404, none, Except.ok ""⟩
    unmarshal := fun _ => Except.ok none
    generate := fun _ => Except.ok "G"
    readmeResp := ⟨200, none, Except.ok "OLD", "README.md"⟩
    branch := ⟨404, none⟩
    createRefErr := none
    updateFileErr := none
    prList := Except.ok []
    prCreateResp := Except.ok ⟨9, "goreadme"⟩ }

/-- C2 witness: with the goreadme branch absent and the default branch
holding `OLD`, the branch is created from the head SHA and the commit
base SHA is the digest of `OLD`. -/
theorem new_branch_commit_uses_default_branch_digest_witness :
    commitCalls (V2.runInBackground ⟨"master", "HEAD0", 0⟩ envC2).2 =
      [⟨"README.md", "G" ++ credits, goreadmeBranch, computeSHA "OLD"⟩] ∧
    refCreates (V2.runInBackground ⟨"master", "HEAD0", 0⟩ envC2).2 = ["HEAD0"] := by
  exact new_branch_commit_uses_default_branch_digest ⟨"master", "HEAD0", 0⟩ envC2
    none "G" "OLD" rfl rfl (by decide) rfl rfl (by decide) rfl rfl

/-- C3 (amended): when the digest of the newly generated document (with
the credits suffix) equals the default branch's current document digest,
the run records Success with message
`"Readme in branch <default-branch> is up to date"` and performs no
branch lookup, no ref creation, no commit and no PR list/create call;
the run is a pure function of the environment, so repeated invocations
on an unchanged repository all take this same no-op path. -/
theorem up_to_date_noop_path
    (jin : JobIn) (env : V1.Env) (cfg : Config) (g rp : String)
    (hc : Job.getConfig env.unmarshal env.configResp = Except.ok cfg)
    (hg : env.generate cfg = Except.ok g)
    (hrd : Job.remoteReadme (env.readme jin.defaultBranch) =
           Except.ok (computeSHA (g ++ credits), rp)) :
    V1.runInBackground jin env =
      (⟨"Success", "Readme in branch " ++ jin.defaultBranch ++ " is up to date",
        "", jin.pr, true⟩,
       [Event.configRead, Event.generate, Event.readmeRead (some jin.defaultBranch),
        Event.save "Success"
          ("Readme in branch " ++ jin.defaultBranch ++ " is up to date") "",
        Event.projectUpdate]) ∧
    commitCalls (V1.runInBackground jin env).2 = [] ∧
    refCreates (V1.runInBackground jin env).2 = [] ∧
    prCreates (V1.runInBackground jin env).2 = [] := by
  have hrun : V1.runInBackground jin env =
      (⟨"Success", "Readme in branch " ++ jin.defaultBranch ++ " is up to date",
        "", jin.pr, true⟩,
       [Event.configRead, Event.generate, Event.readmeRead (some jin.defaultBranch),
        Event.save "Success"
          ("Readme in branch " ++ jin.defaultBranch ++ " is up to date") "",
        Event.projectUpdate]) := by
    simp [V1.runInBackground, hc, hg, hrd, Job.done]
  refine ⟨hrun, ?_, ?_, ?_⟩ <;> rw [hrun] <;> rfl

/-- Concrete V1 environment for the steady-state case: the default
branch already holds exactly the generated content plus credits. -/
def envC3 : V1.Env :=
  { configResp := ⟨404, none, Except.ok ""⟩
    unmarshal := fun _ => Except.ok none
    generate := fun _ => Except.ok "G"
    readme := fun _ => ⟨200, none, Except.ok ("G" ++ credits), "README.md"⟩
    branch := ⟨200, none⟩
    createRefErr := none
    updateFileErr := none
    prList := Except.ok []
    prCreateResp := Except.ok ⟨9, "goreadme"⟩ }

/-- C3 counterexample: on the no-op path the Job is recorded with Status
Success and no mutation is performed, but the recorded message is
`"Readme in branch master is up to date"`, not the literal string
`"up to date"`. -/
theorem up_to_date_message_counterexample :
    (V1.runInBackground {} envC3).1.status = "Success" ∧
    commitCalls (V1.runInBackground {} envC3).2 = [] ∧
    (V1.runInBackground {} envC3).1.message ≠ "up to date" ∧
    (V1.runInBackground {} envC3).1.message =
      "Readme in branch master is up to date" := by
  decide

/-- C3 witness: the amended no-op behaviour at the concrete steady-state
environment. -/
theorem up_to_date_noop_path_witness :
    V1.runInBackground {} envC3 =
      (⟨"Success", "Readme in branch master is up to date", "", 0, true⟩,
       [Event.configRead, Event.generate, Event.readmeRead (some "master"),
        Event.save "Success" "Readme in branch master is up to date" "",
        Event.projectUpdate]) ∧
    commitCalls (V1.runInBackground {} envC3).2 = [] := by
  have h := up_to_date_noop_path {} envC3 none "G" "README.md" rfl rfl rfl
  exact ⟨h.1, h.2.1⟩

/-- Helper: `g ++ credits` is never the raw generator output `g`. -/
theorem append_credits_ne (g : String) : g ++ credits ≠ g := by
  intro h
  have hd := congrArg String.length h
  rw [String.length_append] at hd
  have hpos : 0 < credits.length := by decide
  omega

/-- Helper: under a successful generation of `g`, every `UpdateFile`
call a V1 run performs carries exactly `g ++ credits` as content. -/
theorem V1.run_commit_contents
    (jin : JobIn) (env : V1.Env) (cfg : Config) (g : String)
    (hc : Job.getConfig env.unmarshal env.configResp = Except.ok cfg)
    (hg : env.generate cfg = Except.ok g) :
    ∀ c ∈ commitCalls (V1.runInBackground jin env).2, c.content = g ++ credits := by
  rcases h3 : Job.remoteReadme (env.readme jin.defaultBranch) with e | ⟨d0, rp⟩
  · simp [V1.runInBackground, hc, hg, h3, Job.done, commitCalls]
  · by_cases h4 : d0 = computeSHA (g ++ credits)
    · simp [V1.runInBackground, hc, hg, h3, if_pos h4, Job.done, commitCalls]
    · rcases h5 : V1.createBranch env.branch env.createRefErr jin.headSHA with ⟨evB, rB⟩
      have hevB : evB = [Event.branchGet] ∨
          evB = [Event.branchGet, Event.refCreate jin.headSHA] := by
        have h := V1.createBranch_events env.branch env.createRefErr jin.headSHA
        rw [h5] at h
        exact h
      cases rB with
      | error e =>
        rcases hevB with hevB | hevB <;> subst hevB <;>
          simp [V1.runInBackground, hc, hg, h3, if_neg h4, h5, Job.done, commitCalls]
      | ok u =>
        rcases h6 : Job.remoteReadme (env.readme goreadmeBranch) with e | ⟨sha, p2⟩
        · rcases hevB with hevB | hevB <;> subst hevB <;>
            simp [V1.runInBackground, hc, hg, h3, if_neg h4, h5, h6, Job.done,
              commitCalls]
        · cases h7 : env.updateFileErr with
          | some e =>
            rcases hevB with hevB | hevB <;> subst hevB <;>
              simp [V1.runInBackground, hc, hg, h3, if_neg h4, h5, h6, Job.commit,
                h7, Job.done, commitCalls]
          | none =>
            rcases h8 : V1.pullRequest jin.defaultBranch env.prList env.prCreateResp
              with ⟨evP, rP⟩
            have hevP : evP = [Event.prList none (some jin.defaultBranch)] ∨
                evP = [Event.prList none (some jin.defaultBranch),
                       Event.prCreate prTitle jin.defaultBranch goreadmeBranch] := by
              have h := V1.pullRequest_step_events jin.defaultBranch env.prList env.prCreateResp
              rw [h8] at h
              exact h
            cases rP with
            | error e =>
              rcases hevB with hevB | hevB <;> rcases hevP with hevP | hevP <;>
                subst hevB <;> subst hevP <;>
                  simp [V1.runInBackground, hc, hg, h3, if_neg h4, h5, h6, Job.commit,
                    h7, h8, Job.done, commitCalls]
            | ok nb =>
              rcases nb with ⟨num, created⟩
              rcases hevB with hevB | hevB <;> rcases hevP with hevP | hevP <;>
                subst hevB <;> subst hevP <;>
                  simp [V1.runInBackground, hc, hg, h3, if_neg h4, h5, h6, Job.commit,
                    h7, h8, Job.done, commitCalls]

/-- C10: the credits line is the fixed string and is appended exactly
once to the generator output before any digest or publish: every commit
a run performs carries `g ++ credits` (never the raw output `g`), and
the up-to-date gate compares the default branch digest against the
digest of `g ++ credits`. -/
theorem credits_appended_before_digest_and_commit
    (jin : JobIn) (env : V1.Env) (cfg : Config) (g : String)
    (hc : Job.getConfig env.unmarshal env.configResp = Except.ok cfg)
    (hg : env.generate cfg = Except.ok g) :
    credits = "\nCreated by [goreadme](https://github.com/apps/goreadme)\n" ∧
    (∀ c ∈ commitCalls (V1.runInBackground jin env).2,
       c.content = g ++ credits ∧ c.content ≠ g) ∧
    (∀ rp, Job.remoteReadme (env.readme jin.defaultBranch) =
         Except.ok (computeSHA (g ++ credits), rp) →
       (V1.runInBackground jin env).2 =
         [Event.configRead, Event.generate, Event.readmeRead (some jin.defaultBranch),
          Event.save "Success"
            ("Readme in branch " ++ jin.defaultBranch ++ " is up to date") "",
          Event.projectUpdate]) := by
  refine ⟨rfl, ?_, ?_⟩
  · intro c hmem
    have hcont := V1.run_commit_contents jin env cfg g hc hg c hmem
    exact ⟨hcont, by rw [hcont]; exact append_credits_ne g⟩
  · intro rp hrd
    have : V1.runInBackground jin env =
        (⟨"Success", "Readme in branch " ++ jin.defaultBranch ++ " is up to date",
          "", jin.pr, true⟩,
         [Event.configRead, Event.generate, Event.readmeRead (some jin.defaultBranch),
          Event.save "Success"
            ("Readme in branch " ++ jin.defaultBranch ++ " is up to date") "",
          Event.projectUpdate]) := by
      simp [V1.runInBackground, hc, hg, hrd, Job.done]
    rw [this]

/-- C10 witness: at the concrete publishing environment the single
commit content is the generator output plus the credits line. -/
theorem credits_appended_before_digest_and_commit_witness :
    credits = "\nCreated by [goreadme](https://github.com/apps/goreadme)\n" ∧
    ∀ c ∈ commitCalls (V1.runInBackground {} envC1).2,
      c.content = "G" ++ credits ∧ c.content ≠ "G" := by
  exact ⟨(credits_appended_before_digest_and_commit {} envC1 none "G" rfl rfl).1,
    (credits_appended_before_digest_and_commit {} envC1 none "G" rfl rfl).2.1⟩

/-- Helper: `done` performs exactly the terminal save (with the final
status/message/debug and the duration set) followed by the project
reconciliation. -/
theorem done_fields (pre : List Event) (err : Option String) (msg : String) (pr : Nat)
    (hpre : saves pre = []) :
    saves (Job.done pre err msg pr).2 =
      [((Job.done pre err msg pr).1.status, (Job.done pre err msg pr).1.message,
        (Job.done pre err msg pr).1.debug)] ∧
    (Job.done pre err msg pr).2 =
      pre ++ [Event.save (Job.done pre err msg pr).1.status
                (Job.done pre err msg pr).1.message
                (Job.done pre err msg pr).1.debug,
              Event.projectUpdate] ∧
    (Job.done pre err msg pr).1.durationSet = true ∧
    ((Job.done pre err msg pr).1.status = "Success" ∨
     (Job.done pre err msg pr).1.status = "Failed") := by
  cases err with
  | none =>
    refine ⟨?_, rfl, rfl, Or.inl rfl⟩
    show saves (pre ++ [Event.save "Success" msg "", Event.projectUpdate]) = _
    rw [saves_append, hpre]
    rfl
  | some e =>
    refine ⟨?_, rfl, rfl, Or.inr rfl⟩
    show saves (pre ++ [Event.save "Failed" msg e, Event.projectUpdate]) = _
    rw [saves_append, hpre]
    rfl

/-- Helper: every V1 run performs exactly one job-row save, matching the
final job fields, immediately followed by the project reconciliation;
the duration is always set and the final status is Success or Failed. -/
theorem V1.run_terminal (jin : JobIn) (env : V1.Env) :
    saves (V1.runInBackground jin env).2 =
      [((V1.runInBackground jin env).1.status,
        (V1.runInBackground jin env).1.message,
        (V1.runInBackground jin env).1.debug)] ∧
    (∃ pre, (V1.runInBackground jin env).2 =
       pre ++ [Event.save (V1.runInBackground jin env).1.status
                 (V1.runInBackground jin env).1.message
                 (V1.runInBackground jin env).1.debug,
               Event.projectUpdate]) ∧
    (V1.runInBackground jin env).1.durationSet = true ∧
    ((V1.runInBackground jin env).1.status = "Success" ∨
     (V1.runInBackground jin env).1.status = "Failed") := by
  rcases h1 : Job.getConfig env.unmarshal env.configResp with e | cfg
  · simp only [V1.runInBackground, h1]
    have h := done_fields [Event.configRead] (some e) "Failed getting config" jin.pr rfl
    exact ⟨h.1, ⟨_, h.2.1⟩, h.2.2⟩
  · rcases h2 : env.generate cfg with e | g
    · simp only [V1.runInBackground, h1, h2]
      have h := done_fields [Event.configRead, Event.generate] (some e)
        ("Failed running goreadme: " ++ e) jin.pr rfl
      exact ⟨h.1, ⟨_, h.2.1⟩, h.2.2⟩
    · rcases h3 : Job.remoteReadme (env.readme jin.defaultBranch) with e | ⟨d0, rp⟩
      · simp only [V1.runInBackground, h1, h2, h3]
        have h := done_fields [Event.configRead, Event.generate,
          Event.readmeRead (some jin.defaultBranch)] (some e)
          "Failed getting github README content" jin.pr rfl
        exact ⟨h.1, ⟨_, h.2.1⟩, h.2.2⟩
      · by_cases h4 : d0 = computeSHA (g ++ credits)
        · simp only [V1.runInBackground, h1, h2, h3, if_pos h4]
          have h := done_fields [Event.configRead, Event.generate,
            Event.readmeRead (some jin.defaultBranch)] none
            ("Readme in branch " ++ jin.defaultBranch ++ " is up to date") jin.pr rfl
          exact ⟨h.1, ⟨_, h.2.1⟩, h.2.2⟩
        · rcases h5 : V1.createBranch env.branch env.createRefErr jin.headSHA
            with ⟨evB, rB⟩
          have hevB : evB = [Event.branchGet] ∨
              evB = [Event.branchGet, Event.refCreate jin.headSHA] := by
            have h := V1.createBranch_events env.branch env.createRefErr jin.headSHA
            rw [h5] at h
            exact h
          cases rB with
          | error e =>
            rcases hevB with hevB | hevB <;> subst hevB <;>
            · simp only [V1.runInBackground, h1, h2, h3, if_neg h4, h5]
              exact ⟨(done_fields _ (some e) "Failed creating branch" jin.pr (by rfl)).1,
                ⟨_, (done_fields _ (some e) "Failed creating branch" jin.pr (by rfl)).2.1⟩,
                (done_fields _ (some e) "Failed creating branch" jin.pr (by rfl)).2.2⟩
          | ok u =>
            rcases h6 : Job.remoteReadme (env.readme goreadmeBranch) with e | ⟨sha, p2⟩
            · rcases hevB with hevB | hevB <;> subst hevB <;>
              · simp only [V1.runInBackground, h1, h2, h3, if_neg h4, h5, h6]
                exact ⟨(done_fields _ (some e) "Failed get remote readme SHA" jin.pr (by rfl)).1,
                  ⟨_, (done_fields _ (some e) "Failed get remote readme SHA" jin.pr (by rfl)).2.1⟩,
                  (done_fields _ (some e) "Failed get remote readme SHA" jin.pr (by rfl)).2.2⟩
            · cases h7 : env.updateFileErr with
              | some e =>
                rcases hevB with hevB | hevB <;> subst hevB <;>
                · simp only [V1.runInBackground, h1, h2, h3, if_neg h4, h5, h6,
                    Job.commit, h7]
                  exact ⟨(done_fields _ (some e) "Failed pushing readme content" jin.pr (by rfl)).1,
                    ⟨_, (done_fields _ (some e) "Failed pushing readme content" jin.pr (by rfl)).2.1⟩,
                    (done_fields _ (some e) "Failed pushing readme content" jin.pr (by rfl)).2.2⟩
              | none =>
                rcases h8 : V1.pullRequest jin.defaultBranch env.prList env.prCreateResp
                  with ⟨evP, rP⟩
                have hevP : evP = [Event.prList none (some jin.defaultBranch)] ∨
                    evP = [Event.prList none (some jin.defaultBranch),
                           Event.prCreate prTitle jin.defaultBranch goreadmeBranch] := by
                  have h := V1.pullRequest_step_events jin.defaultBranch env.prList
                    env.prCreateResp
                  rw [h8] at h
                  exact h
                cases rP with
                | error e =>
                  rcases hevB with hevB | hevB <;> rcases hevP with hevP | hevP <;>
                    subst hevB <;> subst hevP <;>
                  · simp only [V1.runInBackground, h1, h2, h3, if_neg h4, h5, h6,
                      Job.commit, h7, h8]
                    exact ⟨(done_fields _ (some e) "Failed creating PR" jin.pr (by rfl)).1,
                      ⟨_, (done_fields _ (some e) "Failed creating PR" jin.pr (by rfl)).2.1⟩,
                      (done_fields _ (some e) "Failed creating PR" jin.pr (by rfl)).2.2⟩
                | ok nb =>
                  rcases nb with ⟨num, created⟩
                  rcases hevB with hevB | hevB <;> rcases hevP with hevP | hevP <;>
                    subst hevB <;> subst hevP <;>
                  · simp only [V1.runInBackground, h1, h2, h3, if_neg h4, h5, h6,
                      Job.commit, h7, h8]
                    exact ⟨(done_fields _ none
                        (if created then "Created PR" else "PR updated") num (by rfl)).1,
                      ⟨_, (done_fields _ none
                        (if created then "Created PR" else "PR updated") num (by rfl)).2.1⟩,
                      (done_fields _ none
                        (if created then "Created PR" else "PR updated") num (by rfl)).2.2⟩

/-- C7: every V1 run saves the job exactly once, in a terminal state
matching the final fields, with the duration set, immediately followed
by the project reconciliation, and the status is always Success or
Failed (no error escapes); and for each failing step the attempt stops
there with Status Failed, the step-specific message, and the failing
step's error text as the Debug field. -/
theorem failure_handling_terminal_save (jin : JobIn) (env : V1.Env) :
    (saves (V1.runInBackground jin env).2 =
       [((V1.runInBackground jin env).1.status,
         (V1.runInBackground jin env).1.message,
         (V1.runInBackground jin env).1.debug)]) ∧
    (∃ pre, (V1.runInBackground jin env).2 =
       pre ++ [Event.save (V1.runInBackground jin env).1.status
                 (V1.runInBackground jin env).1.message
                 (V1.runInBackground jin env).1.debug,
               Event.projectUpdate]) ∧
    ((V1.runInBackground jin env).1.durationSet = true) ∧
    ((V1.runInBackground jin env).1.status = "Success" ∨
     (V1.runInBackground jin env).1.status = "Failed") ∧
    (∀ e, Job.getConfig env.unmarshal env.configResp = Except.error e →
       V1.runInBackground jin env =
         (⟨"Failed", "Failed getting config", e, jin.pr, true⟩,
          [Event.configRead, Event.save "Failed" "Failed getting config" e,
           Event.projectUpdate])) ∧
    (∀ cfg e, Job.getConfig env.unmarshal env.configResp = Except.ok cfg →
       env.generate cfg = Except.error e →
       V1.runInBackground jin env =
         (⟨"Failed", "Failed running goreadme: " ++ e, e, jin.pr, true⟩,
          [Event.configRead, Event.generate,
           Event.save "Failed" ("Failed running goreadme: " ++ e) e,
           Event.projectUpdate])) ∧
    (∀ cfg g e, Job.getConfig env.unmarshal env.configResp = Except.ok cfg →
       env.generate cfg = Except.ok g →
       Job.remoteReadme (env.readme jin.defaultBranch) = Except.error e →
       V1.runInBackground jin env =
         (⟨"Failed", "Failed getting github README content", e, jin.pr, true⟩,
          [Event.configRead, Event.generate, Event.readmeRead (some jin.defaultBranch),
           Event.save "Failed" "Failed getting github README content" e,
           Event.projectUpdate])) ∧
    (∀ cfg g d0 rp evB e, Job.getConfig env.unmarshal env.configResp = Except.ok cfg →
       env.generate cfg = Except.ok g →
       Job.remoteReadme (env.readme jin.defaultBranch) = Except.ok (d0, rp) →
       d0 ≠ computeSHA (g ++ credits) →
       V1.createBranch env.branch env.createRefErr jin.headSHA =
         (evB, Except.error e) →
       V1.runInBackground jin env =
         (⟨"Failed", "Failed creating branch", e, jin.pr, true⟩,
          [Event.configRead, Event.generate, Event.readmeRead (some jin.defaultBranch)]
            ++ evB ++
          [Event.save "Failed" "Failed creating branch" e, Event.projectUpdate])) ∧
    (∀ cfg g d0 rp evB e, Job.getConfig env.unmarshal env.configResp = Except.ok cfg →
       env.generate cfg = Except.ok g →
       Job.remoteReadme (env.readme jin.defaultBranch) = Except.ok (d0, rp) →
       d0 ≠ computeSHA (g ++ credits) →
       V1.createBranch env.branch env.createRefErr jin.headSHA = (evB, Except.ok ()) →
       Job.remoteReadme (env.readme goreadmeBranch) = Except.error e →
       V1.runInBackground jin env =
         (⟨"Failed", "Failed get remote readme SHA", e, jin.pr, true⟩,
          [Event.configRead, Event.generate, Event.readmeRead (some jin.defaultBranch)]
            ++ evB ++
          [Event.readmeRead (some goreadmeBranch),
           Event.save "Failed" "Failed get remote readme SHA" e,
           Event.projectUpdate])) ∧
    (∀ cfg g d0 rp evB sha p2 e,
       Job.getConfig env.unmarshal env.configResp = Except.ok cfg →
       env.generate cfg = Except.ok g →
       Job.remoteReadme (env.readme jin.defaultBranch) = Except.ok (d0, rp) →
       d0 ≠ computeSHA (g ++ credits) →
       V1.createBranch env.branch env.createRefErr jin.headSHA = (evB, Except.ok ()) →
       Job.remoteReadme (env.readme goreadmeBranch) = Except.ok (sha, p2) →
       env.updateFileErr = some e →
       V1.runInBackground jin env =
         (⟨"Failed", "Failed pushing readme content", e, jin.pr, true⟩,
          [Event.configRead, Event.generate, Event.readmeRead (some jin.defaultBranch)]
            ++ evB ++
          [Event.readmeRead (some goreadmeBranch),
           Event.fileUpdate ⟨rp, g ++ credits, goreadmeBranch, sha⟩,
           Event.save "Failed" "Failed pushing readme content" e,
           Event.projectUpdate])) ∧
    (∀ cfg g d0 rp evB sha p2 evP e,
       Job.getConfig env.unmarshal env.configResp = Except.ok cfg →
       env.generate cfg = Except.ok g →
       Job.remoteReadme (env.readme jin.defaultBranch) = Except.ok (d0, rp) →
       d0 ≠ computeSHA (g ++ credits) →
       V1.createBranch env.branch env.createRefErr jin.headSHA = (evB, Except.ok ()) →
       Job.remoteReadme (env.readme goreadmeBranch) = Except.ok (sha, p2) →
       env.updateFileErr = none →
       V1.pullRequest jin.defaultBranch env.prList env.prCreateResp =
         (evP, Except.error e) →
       V1.runInBackground jin env =
         (⟨"Failed", "Failed creating PR", e, jin.pr, true⟩,
          [Event.configRead, Event.generate, Event.readmeRead (some jin.defaultBranch)]
            ++ evB ++
          [Event.readmeRead (some goreadmeBranch),
           Event.fileUpdate ⟨rp, g ++ credits, goreadmeBranch, sha⟩]
            ++ evP ++
          [Event.save "Failed" "Failed creating PR" e, Event.projectUpdate])) := by
  refine ⟨(V1.run_terminal jin env).1, (V1.run_terminal jin env).2.1,
    (V1.run_terminal jin env).2.2.1, (V1.run_terminal jin env).2.2.2,
    ?_, ?_, ?_, ?_, ?_, ?_, ?_⟩
  · intro e he
    simp [V1.runInBackground, he, Job.done]
  · intro cfg e hc hg
    simp [V1.runInBackground, hc, hg, Job.done]
  · intro cfg g e hc hg hr
    simp [V1.runInBackground, hc, hg, hr, Job.done]
  · intro cfg g d0 rp evB e hc hg hr hgate hbr
    simp [V1.runInBackground, hc, hg, hr, if_neg hgate, hbr, Job.done,
      List.append_assoc]
  · intro cfg g d0 rp evB e hc hg hr hgate hbr hr2
    simp [V1.runInBackground, hc, hg, hr, if_neg hgate, hbr, hr2, Job.done,
      List.append_assoc]
  · intro cfg g d0 rp evB sha p2 e hc hg hr hgate hbr hr2 hu
    simp [V1.runInBackground, hc, hg, hr, if_neg hgate, hbr, hr2, Job.commit, hu,
      Job.done, List.append_assoc]
  · intro cfg g d0 rp evB sha p2 evP e hc hg hr hgate hbr hr2 hu hpr
    simp [V1.runInBackground, hc, hg, hr, if_neg hgate, hbr, hr2, Job.commit, hu,
      hpr, Job.done, List.append_assoc]

/-- Concrete V1 environment whose config read fails. -/
def envC7 : V1.Env :=
  { configResp := ⟨500, some "boom", Except.ok ""⟩
    unmarshal := fun _ => Except.ok none
    generate := fun _ => Except.ok "G"
    readme := fun _ => ⟨200, none, Except.ok "OLD", "README.md"⟩
    branch := ⟨200, none⟩
    createRefErr := none
    updateFileErr := none
    prList := Except.ok []
    prCreateResp := Except.ok ⟨9, "goreadme"⟩ }

/-- C7 witness: a failing config read yields a single Failed save with
the step message, the wrapped cause in Debug, followed by the project
reconciliation, and nothing else. -/
theorem failure_handling_terminal_save_witness :
    V1.runInBackground {} envC7 =
      (⟨"Failed", "Failed getting config", wrap "failed get config file" "boom",
        0, true⟩,
       [Event.configRead,
        Event.save "Failed" "Failed getting config"
          (wrap "failed get config file" "boom"),
        Event.projectUpdate]) := by
  exact (failure_handling_terminal_save {} envC7).2.2.2.2.1
    (wrap "failed get config file" "boom") (by decide)

end Goreadme
